import Mathlib

set_option maxRecDepth 4000

/-!
Verification of the hardened request pipeline of the users service
(`src/users-service/secure_main.py`) against its specification.

The Python source is shallowly embedded: pure helper functions become Lean
functions over `String` / `List Char`; the Flask handlers become functions
from an explicit service state to a response and a new state.  Python string
lowering and whitespace are modelled on the ASCII range, which covers every
signature string and every input appearing in the claims.
-/

namespace UsersService

/-- Whitespace characters matched by a Python regex class containing the
escape for whitespace (space, tab, newline, carriage return, vertical tab,
form feed); Unicode spaces are not needed for the inputs considered here. -/
def isPyWS (c : Char) : Bool :=
  c = ' ' || c = '\t' || c = '\n' || c = '\r' || c = '\x0B' || c = '\x0C'

/-- ASCII lowercasing of a character list, matching Python lowering on the
ASCII signatures and inputs used throughout. -/
def lowerL (l : List Char) : List Char :=
  l.map Char.toLower

/-- Whether the first list is an initial segment of the second. -/
def startsWithL : List Char → List Char → Bool
  | [], _ => true
  | _ :: _, [] => false
  | a :: as, b :: bs => a == b && startsWithL as bs

/-- Whether `need` occurs as a contiguous sublist of `hay`
(Python substring containment). -/
def containsL (need hay : List Char) : Bool :=
  startsWithL need hay ||
    match hay with
    | [] => false
    | _ :: t => containsL need t

/-- Case-insensitive containment check used by the threat scanner:
Python lowers both the request data and the pattern before the test. -/
def containsCI (hay pat : String) : Bool :=
  containsL (lowerL pat.toList) (lowerL hay.toList)

/-- The fixed signature list of `security_logging` in `secure_main.py`. -/
def suspicious_patterns : List String :=
  [String.mk ['\''], "\"", "--", ";",
   "DROP", "DELETE FROM", "INSERT INTO",
   "<script", "javascript:", "onerror=",
   "../", "..\\", "etc/passwd"]

/-- Number of increments of the suspicious-pattern security-event counter
performed by `security_logging` on one request: the Python loop has no
early exit, so the counter is bumped once per matching signature. -/
def scanCount (content : String) : Nat :=
  (suspicious_patterns.filter (fun p => containsCI content p)).length

/-- Whether at least one signature matches the request content. -/
def anySuspicious (content : String) : Bool :=
  suspicious_patterns.any (fun p => containsCI content p)

/-! ## Validators (`validate_email`, `validate_name`, `sanitize_input`) -/

/-- Characters admitted in the local part of the email regex of
`validate_email`: letters, digits, and the symbols dot, underscore,
percent, plus, hyphen. -/
def localChar (c : Char) : Bool :=
  c.isAlpha || c.isDigit || c = '.' || c = '_' || c = '%' || c = '+' || c = '-'

/-- Characters admitted in the domain part of the email regex:
letters, digits, dot, hyphen. -/
def domainChar (c : Char) : Bool :=
  c.isAlpha || c.isDigit || c = '.' || c = '-'

/-- The trailing top-level-domain part of the email regex: at least two
characters, all ASCII letters. -/
def tldOk (t : List Char) : Bool :=
  2 ≤ t.length && t.all (fun c => c.isAlpha)

/-- After at least one domain character has been read, the rest of the
string must split at some dot into further domain characters and a final
top-level domain (this searches every split, which is what the
backtracking regex engine does). -/
def domRest : List Char → Bool
  | [] => false
  | c :: rest => (c = '.' && tldOk rest) || (domainChar c && domRest rest)

/-- The part after the at-sign: a nonempty run of domain characters, a
literal dot, and a top-level domain of at least two letters. -/
def domPart : List Char → Bool
  | [] => false
  | c :: rest => domainChar c && domRest rest

/-- Consume the local part up to the first at-sign, then check the domain
tail.  Since the at-sign is not a local character, splitting at the first
at-sign is exactly what the regex does. -/
def emailShape : List Char → Bool
  | [] => false
  | c :: rest =>
    if c = '@' then false
    else localChar c && emailRest rest
where
  emailRest : List Char → Bool
    | [] => false
    | c :: rest =>
      if c = '@' then domPart rest
      else localChar c && emailRest rest

/-- Modelled from the spec: the "standard local@domain.tld shape" — a
nonempty local part over letters, digits and dot/underscore/percent/plus/
hyphen, an at-sign, a nonempty domain over letters, digits, dot, hyphen,
a final dot, and a top-level domain of at least two letters, covering the
whole string. -/
def standard_email_shape (s : String) : Bool :=
  emailShape s.toList

/-- `validate_email` from `secure_main.py`: a fully anchored regex match.
In Python the end anchor also matches just before a single trailing
newline, so a shaped string followed by one newline is accepted too. -/
def validate_email (s : String) : Bool :=
  emailShape s.toList ||
    (s.toList.getLast? = some '\n' && emailShape s.toList.dropLast)

/-- The character class of the `validate_name` regex: ASCII letters, the
whole range U+00C0 to U+00FF (accented Latin-1 letters, but also the
multiplication and division signs), regex whitespace, hyphen, apostrophe. -/
def nameChar (c : Char) : Bool :=
  c.isAlpha || (0xC0 ≤ c.val && c.val ≤ 0xFF) || isPyWS c || c = '-' || c = '\''

/-- `validate_name` from `secure_main.py`: length between 2 and 100, then
the anchored class regex.  A newline is in the class, so the end-anchor
subtlety changes nothing here. -/
def validate_name (s : String) : Bool :=
  if s.length < 2 || 100 < s.length then false
  else !s.toList.isEmpty && s.toList.all nameChar

/-- Modelled from the spec: a "letter (including accented letters)",
read over the Latin-1 range: ASCII letters plus U+00C0 to U+00FF without
the multiplication sign U+00D7 and the division sign U+00F7.  The
counterexamples below do not depend on this choice: they use characters
that are not letters under any reading. -/
def specIsLetter (c : Char) : Bool :=
  c.isAlpha || (0xC0 ≤ c.val && c.val ≤ 0xFF && c.val ≠ 0xD7 && c.val ≠ 0xF7)

/-- Modelled from the spec: the claimed characterization of
`validate_name` — length in [2,100] and every character a letter, a
space, a hyphen, or an apostrophe. -/
def spec_name_ok (s : String) : Bool :=
  2 ≤ s.length && s.length ≤ 100 &&
    s.toList.all (fun c => specIsLetter c || c = ' ' || c = '-' || c = '\'')

/-- The dangerous single characters removed by `sanitize_input`. -/
def dangerousChar (c : Char) : Bool :=
  c = '<' || c = '>' || c = '"' || c = '\'' || c = ';'

/-- Removal of the two-character dash-dash sequence, non-overlapping and
left to right, as Python string replacement does. -/
def removeDD : List Char → List Char
  | '-' :: '-' :: rest => removeDD rest
  | c :: rest => c :: removeDD rest
  | [] => []

/-- `sanitize_input` from `secure_main.py`: sequential replacement by the
empty string of the five dangerous characters and then of the dash-dash
sequence.  The five single-character replacements together are a filter,
after which the dash-dash replacement runs. -/
def sanitize_input (s : String) : String :=
  String.mk (removeDD (s.toList.filter (fun c => !dangerousChar c)))

/-! ## Service state and CRUD handlers -/

/-- A stored user row: id, name, email (the creation timestamp plays no
role in any claim and is omitted). -/
structure StoredUser where
  id : Nat
  name : String
  email : String
deriving DecidableEq, Repr

/-- The single list-cache entry `users:all`: the serialized user list and
its expiry instant (set 60 seconds after the write, per `setex`). -/
structure CacheEntry where
  data : List StoredUser
  expiry : Nat
deriving DecidableEq, Repr

/-- The service state: the users table, the optional cache entry
(`none` when the key is absent), and the next id the database assigns. -/
structure SState where
  users : List StoredUser
  cache : Option CacheEntry
  nextId : Nat
deriving DecidableEq, Repr

/-- Response payloads produced by the handlers. -/
inductive Payload where
  | msg (m : String)
  | user (u : StoredUser)
  | list (data : List StoredUser) (source : String)
  | empty
deriving DecidableEq, Repr

/-- An HTTP response: status code and payload. -/
structure Resp where
  status : Nat
  payload : Payload
deriving DecidableEq, Repr

/-- An error response carrying a message body. -/
def Resp.err (status : Nat) (m : String) : Resp :=
  ⟨status, .msg m⟩

/-- Python string strip: drop leading and trailing whitespace. -/
def pyStrip (s : String) : String :=
  String.mk (((s.toList.dropWhile isPyWS).reverse.dropWhile isPyWS).reverse)

/-- Python string lower on the ASCII range. -/
def pyLower (s : String) : String :=
  String.mk (lowerL s.toList)

/-- The body of a create or update request: optional name and email
fields (a missing key in the JSON object is `none`). -/
structure ReqData where
  nameField : Option String
  emailField : Option String
deriving DecidableEq, Repr

/-- Whether some user in the table has exactly this email (the
case-sensitive lookup `filter_by(email=...)` of `create_user`). -/
def hasEmail (users : List StoredUser) (e : String) : Bool :=
  users.any (fun u => u.email == e)

/-- Whether the table holds two distinct rows with the same email; the
database commit raises an integrity error exactly when the write would
produce such a pair (the `unique=True` constraint on the email column). -/
def dupEmails (users : List StoredUser) : Bool :=
  users.any (fun u => users.any (fun v => u.id ≠ v.id && u.email == v.email))

/-- Lookup by id, as `User.query.get` does. -/
def findUser (users : List StoredUser) (id : Nat) : Option StoredUser :=
  users.find? (fun u => u.id == id)

/-- `GET /users` (`get_users`): serve from the cache when the key is
present and unexpired, otherwise read the table, store it in the cache
with a 60-second expiry, and tag the source.  The cache backend is taken
available and functioning here; its fault modes are modelled in the write
handlers, which the cache-degradation claim is about. -/
def get_users (st : SState) (now : Nat) : Resp × SState :=
  match st.cache with
  | some e =>
    if now < e.expiry then
      (⟨200, .list e.data "cache"⟩, st)
    else
      (⟨200, .list st.users "database"⟩,
       { st with cache := some ⟨st.users, now + 60⟩ })
  | none =>
    (⟨200, .list st.users "database"⟩,
     { st with cache := some ⟨st.users, now + 60⟩ })

/-- `POST /users` (`create_user`).  `cacheRaises` models a connected cache
client whose calls raise; in this handler the invalidation is wrapped in
its own try/except, so a raising delete only leaves the key in place.
The duplicate pre-check compares the raw request email; the insert itself
stores the lowercased, stripped email and the sanitized name, and the
commit fails on the unique-email constraint. -/
def create_user (cacheRaises : Bool) (st : SState) (data : Option ReqData) :
    Resp × SState :=
  match data with
  | none => (.err 400 "No data provided", st)
  | some d =>
    match d.nameField, d.emailField with
    | some name, some email =>
      if !validate_name name then
        (.err 400 "Invalid name format. Use 2-100 characters, letters only", st)
      else if !validate_email email then
        (.err 400 "Invalid email format", st)
      else if hasEmail st.users email then
        (.err 409 "Email already exists", st)
      else
        let u : StoredUser :=
          ⟨st.nextId, sanitize_input name, pyLower (pyStrip email)⟩
        if dupEmails (st.users ++ [u]) then
          -- commit raises IntegrityError; session rolled back, nothing stored
          (.err 500 "Failed to create user", st)
        else
          let st' := { st with users := st.users ++ [u], nextId := st.nextId + 1 }
          (⟨201, .user u⟩,
           if cacheRaises then st' else { st' with cache := none })
    | _, _ => (.err 400 "name and email are required", st)

/-- `PUT /users/<id>` (`update_user`).  The cache delete here is NOT
wrapped in its own try/except: when it raises, the outer handler catches
the exception after the commit has already succeeded, so the row stays
updated, the cache key stays in place, and the client receives 500. -/
def update_user (cacheRaises : Bool) (st : SState) (id : Nat)
    (data : Option ReqData) : Resp × SState :=
  if id ≤ 0 then (.err 400 "Invalid user ID", st)
  else
    match findUser st.users id with
    | none => (.err 404 "Resource not found", st)
    | some u =>
      match data with
      | none => (.err 400 "No data provided", st)
      | some d =>
        if d.nameField.any (fun n => !validate_name n) then
          (.err 400 "Invalid name format", st)
        else if d.emailField.any (fun e => !validate_email e) then
          (.err 400 "Invalid email format", st)
        else
          let u' : StoredUser :=
            ⟨u.id,
             match d.nameField with
             | some n => sanitize_input n
             | none => u.name,
             match d.emailField with
             | some e => pyLower (pyStrip e)
             | none => u.email⟩
          let users' := st.users.map (fun v => if v.id = id then u' else v)
          if dupEmails users' then
            -- commit raises IntegrityError; rollback restores the old row
            (.err 500 "Failed to update user", st)
          else
            let st' := { st with users := users' }
            if cacheRaises then
              -- delete raises after the successful commit: caught by the
              -- outer except, rollback is a no-op, 500 returned
              (.err 500 "Failed to update user", st')
            else
              (⟨200, .user u'⟩, { st' with cache := none })

/-- `DELETE /users/<id>` (`delete_user`).  As in `update_user`, the cache
delete is not individually guarded: when it raises, the row is already
gone from the table but the client receives 500. -/
def delete_user (cacheRaises : Bool) (st : SState) (id : Nat) :
    Resp × SState :=
  if id ≤ 0 then (.err 400 "Invalid user ID", st)
  else
    match findUser st.users id with
    | none => (.err 404 "Resource not found", st)
    | some _ =>
      let st' := { st with users := st.users.filter (fun v => v.id ≠ id) }
      if cacheRaises then
        (.err 500 "Failed to delete user", st')
      else
        (⟨204, .empty⟩, { st' with cache := none })

/-! ## Threat-scanner stage -/

/-- `security_logging`, the before-request hook: the Python function falls
off the end and so returns no response, which means Flask always continues
to the view.  Its only effect is the security-event counter, bumped once
per matching signature (second component). -/
def security_logging (content : String) : Option Resp × Nat :=
  (none, scanCount content)

/-- One request through the scanner stage and a view.  A before-request
hook that returned a response would short-circuit the request;
`security_logging` never does, so the view always runs and its outcome is
untouched by the scan. -/
def run_request (content : String) (view : SState → Resp × SState)
    (st : SState) : (Resp × SState) × Nat :=
  match security_logging content with
  | (some r, n) => ((r, st), n)
  | (none, n) => (view st, n)

/-! ## Rate limiter

The window algorithm lives in the third-party limiter package, not in this
repository; it is modelled from the spec (section 4.3): per tier a window
start and a count, reset when the window duration has elapsed, increment,
reject once the count exceeds the tier limit, first breached tier wins.
Which tiers govern which route is taken from the code: the health view
carries the exempt decorator; the metrics view carries no limit decorator
and no exemption, so the default limits configured on the limiter (60 per
minute, 1000 per hour) apply to it. -/

/-- One rate tier: at most `limit` requests per `seconds`-second window. -/
structure Tier where
  limit : Nat
  seconds : Nat
deriving DecidableEq, Repr

/-- Per-tier window state: window start instant and request count. -/
structure Window where
  start : Nat
  count : Nat
deriving DecidableEq, Repr

/-- One request against one tier: reset the window if it has expired,
increment the count, reject when the count exceeds the limit. -/
def tierStep (t : Tier) (w : Window) (now : Nat) : Window × Bool :=
  let w1 := if t.seconds ≤ now - w.start then Window.mk now 0 else w
  let w2 := Window.mk w1.start (w1.count + 1)
  (w2, decide (t.limit < w2.count))

/-- One request against all tiers of a route: every tier's counter is
advanced; the request is rejected when any tier is breached. -/
def routeStep (tiers : List Tier) (ws : List Window) (now : Nat) :
    List Window × Bool :=
  let stepped := (tiers.zip ws).map (fun p => tierStep p.1 p.2 now)
  (stepped.map Prod.fst, stepped.any Prod.snd)

/-- Fresh windows for a client key, opened at its first request. -/
def initWindows (tiers : List Tier) (t0 : Nat) : List Window :=
  tiers.map (fun _ => Window.mk t0 0)

/-- Run a request sequence from given window states, returning per request
whether it was rejected. -/
def runFrom (tiers : List Tier) (ws : List Window) : List Nat → List Bool
  | [] => []
  | t :: rest =>
    let s := routeStep tiers ws t
    s.2 :: runFrom tiers s.1 rest

/-- Run a client's request sequence against a route's tiers, windows
created at the first request. -/
def runRequests (tiers : List Tier) (times : List Nat) : List Bool :=
  match times with
  | [] => []
  | t0 :: _ => runFrom tiers (initWindows tiers t0) times

/-- Tiers governing the health route: none, because the view is decorated
with the limiter's exemption. -/
def healthTiers : List Tier := []

/-- The default limits configured on the limiter: 60 per minute and 1000
per hour (the environment defaults in the code). -/
def defaultTiers : List Tier := [Tier.mk 60 60, Tier.mk 1000 3600]

/-- Tiers governing the metrics route: the metrics view has no limit
decorator and no exemption, so the limiter's default limits apply. -/
def metricsTiers : List Tier := defaultTiers

/-! ## Metrics wrapper -/

/-- The metrics sink: request counter (method, endpoint, status), error
counter (method, endpoint, status), and the number of latency
observations (method, endpoint) — the histogram is tagged with method and
endpoint only. -/
structure Metrics where
  requestCount : String → String → Nat → Nat
  httpErrors : String → String → Nat → Nat
  latencyObs : String → String → Nat

/-- Increment a status-labelled counter at one label triple. -/
def bumpStatus (f : String → String → Nat → Nat) (m e : String) (s : Nat) :
    String → String → Nat → Nat :=
  fun m' e' s' => if m' = m ∧ e' = e ∧ s' = s then f m' e' s' + 1 else f m' e' s'

/-- Increment a counter labelled with method and endpoint only. -/
def bumpPair (f : String → String → Nat) (m e : String) :
    String → String → Nat :=
  fun m' e' => if m' = m ∧ e' = e then f m' e' + 1 else f m' e'

/-- Outcome of running the wrapped view function: a returned response
(whose status the wrapper reads off, 200 when the view returned a bare
body), or an exception escaping the view — which includes the rate-limit
exception, since the limiter checks a route's decorated limit inside the
view wrapper that the metrics decorator encloses. -/
inductive ViewResult where
  | ok (r : Resp)
  | raised
deriving DecidableEq

/-- `track_metrics` from `secure_main.py`: on a returned response, count
the request under its status, observe latency, and additionally count an
error when the status is at least 400; on an exception, count the request
and an error under 500, observe latency, and answer 500 (message detail
depends on the environment; the status does not). -/
def track_metrics (method endpoint : String) (run : ViewResult)
    (m : Metrics) : Resp × Metrics :=
  match run with
  | .ok r =>
    let m1 : Metrics :=
      { m with
        requestCount := bumpStatus m.requestCount method endpoint r.status,
        latencyObs := bumpPair m.latencyObs method endpoint }
    if 400 ≤ r.status then
      (r, { m1 with
            httpErrors := bumpStatus m1.httpErrors method endpoint r.status })
    else
      (r, m1)
  | .raised =>
    (.err 500 "Internal server error",
     { m with
       requestCount := bumpStatus m.requestCount method endpoint 500,
       httpErrors := bumpStatus m.httpErrors method endpoint 500,
       latencyObs := bumpPair m.latencyObs method endpoint })

/-- A request to a metrics-wrapped route: when the route's decorated
limit is breached, the limiter raises from inside the wrapped call, which
the metrics wrapper catches like any other exception; otherwise the
view's own outcome goes through. -/
def dispatch_route (limited : Bool) (method endpoint : String)
    (view : ViewResult) (m : Metrics) : Resp × Metrics :=
  track_metrics method endpoint (if limited then .raised else view) m

/-! ## Routing of the single-user read -/

/-- Split a path at slashes, the segmentation the router performs. -/
def segSplit : List Char → List (List Char)
  | [] => [[]]
  | c :: rest =>
    let r := segSplit rest
    if c = '/' then [] :: r
    else
      match r with
      | s :: ss => (c :: s) :: ss
      | [] => [[c]]

/-- A nonempty run of decimal digits — the language of the router's
integer converter, which admits no sign. -/
def isDigitsL (l : List Char) : Bool :=
  !l.isEmpty && l.all Char.isDigit

/-- Numeric value of a digit string. -/
def toNatL (l : List Char) : Nat :=
  l.foldl (fun a c => a * 10 + (c.toNat - 48)) 0

/-- `GET /users/<id>` view (`get_user`): 400 for a non-positive id before
any database access; otherwise a lookup (absent ids abort with 404).  The
second component records whether the persistence layer was queried. -/
def get_user_view (users : List StoredUser) (id : Nat) : Resp × Bool :=
  if id ≤ 0 then
    (.err 400 "Invalid user ID", false)
  else
    match findUser users id with
    | some u => (⟨200, .user u⟩, true)
    | none => (.err 404 "Resource not found", true)

/-- Route matching for the single-user route: the rule is
/users/<int:id> and the integer converter matches digits only, so a path
whose last segment is not a digit run (such as a last segment of minus
one) matches no
route. -/
def matchUserRoute (path : String) : Option Nat :=
  match segSplit path.toList with
  | [thisEmpty, seg1, seg2] =>
    if thisEmpty == ([] : List Char) && seg1 == "users".toList && isDigitsL seg2 then
      some (toNatL seg2)
    else
      none
  | _ => none

/-- Dispatch of a GET against the single-user route: a matching path runs
the view; any other path falls to the 404 error handler without touching
persistence. -/
def dispatch_get_user (users : List StoredUser) (path : String) :
    Resp × Bool :=
  match matchUserRoute path with
  | some id => get_user_view users id
  | none => (.err 404 "Resource not found", false)

/-! ## Concrete instances used in the closed statements -/

/-- A user row already in the store in the concrete scenarios. -/
def userAnne : StoredUser := ⟨1, "Anne", "a@b.co"⟩

/-- A one-user service state with no cached entry. -/
def stAnne : SState := ⟨[userAnne], none, 2⟩

/-- An empty-store service state. -/
def stEmpty : SState := ⟨[], none, 1⟩

/-- A view used to exercise the scanner stage. -/
def viewNoop : SState → Resp × SState := fun st => (⟨204, .empty⟩, st)

/-- Request content carrying an injection attempt. -/
def dropContent : String := "; DROP TABLE"

/-- The two-apostrophe name. -/
def apApName : String := String.mk ['\'', '\'']

/-- A name containing a tab character. -/
def tabName : String := String.mk ['a', '\t', 'b']

/-- A name consisting of two multiplication signs (U+00D7). -/
def xxName : String := String.mk ['×', '×']

/-- The accepted example name from the spec. -/
def nameOBrien : String :=
  String.mk ['A','n','n','e','-','M','a','r','i','e',' ','O','\'','B','r','i','e','n']

/-- An email accepted by the regex only through the end-anchor newline rule. -/
def emailNL : String := "a@b.co\n"

/-- The all-zero metrics sink. -/
def metricsZero : Metrics := ⟨fun _ _ _ => 0, fun _ _ _ => 0, fun _ _ => 0⟩

/-! ## Helper lemmas on the success paths -/

/-- A create that answered 201 went through the final branch, which deletes
the list-cache key (the cache working normally). -/
theorem create_201_cache (st : SState) (d : Option ReqData)
    (h : (create_user false st d).1.status = 201) :
    (create_user false st d).2.cache = none := by
  cases d with
  | none => simp [create_user, Resp.err] at h
  | some dd =>
    rcases hdn : dd.nameField with _ | name
    · simp [create_user, hdn, Resp.err] at h
    · rcases hde : dd.emailField with _ | email
      · simp [create_user, hdn, hde, Resp.err] at h
      · by_cases h1 : validate_name name = true
        · by_cases h2 : validate_email email = true
          · by_cases h3 : hasEmail st.users email = true
            · simp [create_user, hdn, hde, h1, h2, h3, Resp.err] at h
            · by_cases h4 : dupEmails (st.users ++
                  [⟨st.nextId, sanitize_input name, pyLower (pyStrip email)⟩]) = true
              · simp [create_user, hdn, hde, h1, h2, h3, h4, Resp.err] at h
              · simp [create_user, hdn, hde, h1, h2, h3, h4]
          · simp [create_user, hdn, hde, h1, h2, Resp.err] at h
        · simp [create_user, hdn, hde, h1, Resp.err] at h

/-- An update that answered 200 went through the final branch, which
deletes the list-cache key (the cache working normally). -/
theorem update_200_cache (st : SState) (id : Nat) (ud : Option ReqData)
    (h : (update_user false st id ud).1.status = 200) :
    (update_user false st id ud).2.cache = none := by
  by_cases hid : id ≤ 0
  · simp [update_user, hid, Resp.err] at h
  · rcases hfu : findUser st.users id with _ | u
    · simp [update_user, hid, hfu, Resp.err] at h
    · rcases ud with _ | d
      · simp [update_user, hid, hfu, Resp.err] at h
      · by_cases hn : d.nameField.any (fun n => !validate_name n) = true
        · simp [update_user, hid, hfu, hn, Resp.err] at h
        · by_cases he : d.emailField.any (fun e => !validate_email e) = true
          · simp [update_user, hid, hfu, hn, he, Resp.err] at h
          · simp [update_user, hid, hfu, hn, he] at h ⊢
            split at h
            · simp [Resp.err] at h
            · next hdup => simp [hdup]

/-- A delete that answered 204 went through the final branch, which
deletes the list-cache key (the cache working normally). -/
theorem delete_204_cache (st : SState) (id : Nat)
    (h : (delete_user false st id).1.status = 204) :
    (delete_user false st id).2.cache = none := by
  by_cases hid : id ≤ 0
  · simp [delete_user, hid, Resp.err] at h
  · rcases hfu : findUser st.users id with _ | u
    · simp [delete_user, hid, hfu, Resp.err] at h
    · simp [delete_user, hid, hfu]

/-- A create that answered 201 appended exactly one row, holding the
sanitized name and the lowercased, stripped email, under the next id. -/
theorem create_201_users (cr : Bool) (st : SState) (name email : String)
    (h : (create_user cr st (some ⟨some name, some email⟩)).1.status = 201) :
    (create_user cr st (some ⟨some name, some email⟩)).2.users =
      st.users ++ [⟨st.nextId, sanitize_input name, pyLower (pyStrip email)⟩] := by
  by_cases h1 : validate_name name = true
  · by_cases h2 : validate_email email = true
    · by_cases h3 : hasEmail st.users email = true
      · simp [create_user, h1, h2, h3, Resp.err] at h
      · by_cases h4 : dupEmails (st.users ++
            [⟨st.nextId, sanitize_input name, pyLower (pyStrip email)⟩]) = true
        · simp [create_user, h1, h2, h3, h4, Resp.err] at h
        · cases cr <;> simp [create_user, h1, h2, h3, h4]
    · simp [create_user, h1, h2, Resp.err] at h
  · simp [create_user, h1, Resp.err] at h

/-- A list read against an absent cache key is served from the database
and repopulates the cache with a 60-second expiry. -/
theorem get_users_db (st : SState) (t : Nat) (h : st.cache = none) :
    get_users st t =
      (⟨200, .list st.users "database"⟩,
       { st with cache := some ⟨st.users, t + 60⟩ }) := by
  simp [get_users, h]

/-- A route with no tiers rejects nothing, whatever the request sequence. -/
theorem runFrom_no_tiers (ws : List Window) (times : List Nat) :
    runFrom [] ws times = times.map (fun _ => false) := by
  induction times generalizing ws with
  | nil => rfl
  | cons t rest ih => simp [runFrom, routeStep, ih]

/-! ## Claims -/

/-- Claim C1 (code bug): with the email a@b.co stored, a create request
whose email differs only in case (A@b.co) slips past the case-sensitive
duplicate pre-check, and the insert of the lowercased email then violates
the unique constraint at commit: the service answers 500, not the claimed
409 conflict — though, as claimed, no new user is persisted. -/
theorem claim_C1_case_variant_email_returns_500 :
    (create_user false stAnne (some ⟨some "Bob", some "A@b.co"⟩)).1.status = 500 ∧
    (create_user false stAnne (some ⟨some "Bob", some "A@b.co"⟩)).2 = stAnne := by
  decide

/-- Claim C2 (code bug): a raising cache backend is tolerated by create
(201 even when the cache delete raises), but in update and delete the
unguarded cache delete raises into the outer handler after the commit has
already succeeded: the same update that answers 200 with a working cache
answers 500 with a raising one — and the row change is nevertheless
persisted — contradicting the claim that a cache fault never changes the
success outcome. -/
theorem claim_C2_cache_fault_fails_update_delete :
    (update_user true stAnne 1 (some ⟨some "Bob", none⟩)).1.status = 500 ∧
    (update_user true stAnne 1 (some ⟨some "Bob", none⟩)).2.users = [⟨1, "Bob", "a@b.co"⟩] ∧
    (update_user false stAnne 1 (some ⟨some "Bob", none⟩)).1.status = 200 ∧
    (delete_user true stAnne 1).1.status = 500 ∧
    (delete_user false stAnne 1).1.status = 204 ∧
    (create_user true stAnne (some ⟨some "Bob", some "c@d.co"⟩)).1.status = 201 := by
  decide

/-- Claim C3 counterexample: content carrying one injection attempt
matches two signatures (the semicolon and the DROP keyword), so the
suspicious-pattern counter is incremented twice, not exactly once. -/
theorem claim_C3_counterexample_double_count :
    scanCount dropContent = 2 ∧ scanCount dropContent ≠ 1 := by decide

/-- Claim C3 (amended): the threat scanner never blocks and never alters
the outcome — the pipeline result equals the view result for any content —
and on content with at least one matching signature the suspicious-pattern
counter is incremented at least once (once per matching signature, rather
than the claimed exactly once). -/
theorem claim_C3_scanner_advisory (content : String)
    (view : SState → Resp × SState) (st : SState)
    (h : anySuspicious content = true) :
    run_request content view st = (view st, scanCount content) ∧
    1 ≤ scanCount content := by
  refine ⟨rfl, ?_⟩
  have hex : ∃ p, p ∈ suspicious_patterns ∧ containsCI content p = true := by
    simpa [anySuspicious, List.any_eq_true] using h
  obtain ⟨p, hp, hc⟩ := hex
  have hm : p ∈ suspicious_patterns.filter (fun q => containsCI content q) :=
    List.mem_filter.2 ⟨hp, hc⟩
  have hpos : 0 < (suspicious_patterns.filter (fun q => containsCI content q)).length :=
    List.length_pos.2 (List.ne_nil_of_mem hm)
  simpa [scanCount] using hpos

/-- Claim C3 witness: the amended statement at the concrete injection
content and a concrete view. -/
theorem claim_C3_witness :
    run_request dropContent viewNoop stAnne = (viewNoop stAnne, scanCount dropContent) ∧
    1 ≤ scanCount dropContent :=
  claim_C3_scanner_advisory dropContent viewNoop stAnne (by decide)

/-- Claim C4 (amended): the health route is exempt, so no request to it is
ever rejected, for any request volume; the metrics route is governed by
the limiter's default tiers, and the 61st request inside one minute from
one client is rejected. -/
theorem claim_C4_health_exempt_metrics_defaulted :
    (∀ times : List Nat, runRequests healthTiers times = times.map (fun _ => false)) ∧
    (runRequests metricsTiers (List.replicate 61 0)).getLast? = some true := by
  constructor
  · intro times
    cases times with
    | nil => rfl
    | cons t rest => exact runFrom_no_tiers _ _
  · decide

/-- Claim C4 counterexample: among 61 requests to the metrics route at one
instant there is a rejected one, refuting that the metrics route is never
rejected by the rate limiter. -/
theorem claim_C4_counterexample_metrics_rejected :
    (runRequests metricsTiers (List.replicate 61 0)).any (fun b => b) = true := by
  decide

/-- Claim C5: every successful create, update or delete leaves the list
cache invalidated, so a following list read is served from the database
with data reflecting the write; and a list read on a cold cache followed,
with no intervening write, by a second read within the 60-second TTL is
served from the cache with identical data. -/
theorem claim_C5_write_invalidates_read_caches (st : SState) (d : Option ReqData)
    (id : Nat) (ud : Option ReqData) (t t' : Nat) :
    ((create_user false st d).1.status = 201 →
      (create_user false st d).2.cache = none ∧
      (get_users (create_user false st d).2 t).1 =
        ⟨200, .list (create_user false st d).2.users "database"⟩) ∧
    ((update_user false st id ud).1.status = 200 →
      (update_user false st id ud).2.cache = none ∧
      (get_users (update_user false st id ud).2 t).1 =
        ⟨200, .list (update_user false st id ud).2.users "database"⟩) ∧
    ((delete_user false st id).1.status = 204 →
      (delete_user false st id).2.cache = none ∧
      (get_users (delete_user false st id).2 t).1 =
        ⟨200, .list (delete_user false st id).2.users "database"⟩) ∧
    (st.cache = none → t ≤ t' → t' < t + 60 →
      (get_users st t).1 = ⟨200, .list st.users "database"⟩ ∧
      (get_users (get_users st t).2 t').1 = ⟨200, .list st.users "cache"⟩) := by
  refine ⟨?_, ?_, ?_, ?_⟩
  · intro h
    have hc := create_201_cache st d h
    exact ⟨hc, by rw [get_users_db _ t hc]⟩
  · intro h
    have hc := update_200_cache st id ud h
    exact ⟨hc, by rw [get_users_db _ t hc]⟩
  · intro h
    have hc := delete_204_cache st id h
    exact ⟨hc, by rw [get_users_db _ t hc]⟩
  · intro hc h1 h2
    refine ⟨by rw [get_users_db st t hc], ?_⟩
    rw [get_users_db st t hc]
    simp [get_users, h2]

/-- Claim C5 witness: the write-invalidation and double-read conclusions
at a concrete state, with a successful create, update and delete. -/
theorem claim_C5_witness :
    ((create_user false stAnne (some ⟨some "Bob", some "c@d.co"⟩)).2.cache = none ∧
      (get_users (create_user false stAnne (some ⟨some "Bob", some "c@d.co"⟩)).2 0).1 =
        ⟨200, .list (create_user false stAnne (some ⟨some "Bob", some "c@d.co"⟩)).2.users
          "database"⟩) ∧
    ((update_user false stAnne 1 (some ⟨some "Bob", none⟩)).2.cache = none ∧
      (get_users (update_user false stAnne 1 (some ⟨some "Bob", none⟩)).2 0).1 =
        ⟨200, .list (update_user false stAnne 1 (some ⟨some "Bob", none⟩)).2.users
          "database"⟩) ∧
    ((delete_user false stAnne 1).2.cache = none ∧
      (get_users (delete_user false stAnne 1).2 0).1 =
        ⟨200, .list (delete_user false stAnne 1).2.users "database"⟩) ∧
    ((get_users stAnne 0).1 = ⟨200, .list stAnne.users "database"⟩ ∧
      (get_users (get_users stAnne 0).2 30).1 = ⟨200, .list stAnne.users "cache"⟩) :=
  ⟨(claim_C5_write_invalidates_read_caches stAnne (some ⟨some "Bob", some "c@d.co"⟩)
      1 (some ⟨some "Bob", none⟩) 0 30).1 (by decide),
   (claim_C5_write_invalidates_read_caches stAnne (some ⟨some "Bob", some "c@d.co"⟩)
      1 (some ⟨some "Bob", none⟩) 0 30).2.1 (by decide),
   (claim_C5_write_invalidates_read_caches stAnne (some ⟨some "Bob", some "c@d.co"⟩)
      1 (some ⟨some "Bob", none⟩) 0 30).2.2.1 (by decide),
   (claim_C5_write_invalidates_read_caches stAnne (some ⟨some "Bob", some "c@d.co"⟩)
      1 (some ⟨some "Bob", none⟩) 0 30).2.2.2 (by decide) (by decide) (by decide)⟩

/-- Claim C6: every request to a metrics-wrapped route — returned
responses of any status, rate-limit rejections and unexpected exceptions
alike — increments the request counter under (method, endpoint, final
status) and the latency observation under (method, endpoint); a final
status of at least 400 additionally increments the error counter; and a
rate-limited request surfaces with final status 500 (the limiter raises
inside the wrapped call and the wrapper's generic handler answers 500),
under which it is recorded. -/
theorem claim_C6_metrics_every_exit (limited : Bool) (method endpoint : String)
    (view : ViewResult) (m : Metrics) :
    (dispatch_route limited method endpoint view m).2.requestCount method endpoint
        (dispatch_route limited method endpoint view m).1.status =
      m.requestCount method endpoint
        (dispatch_route limited method endpoint view m).1.status + 1 ∧
    (dispatch_route limited method endpoint view m).2.latencyObs method endpoint =
      m.latencyObs method endpoint + 1 ∧
    (400 ≤ (dispatch_route limited method endpoint view m).1.status →
      (dispatch_route limited method endpoint view m).2.httpErrors method endpoint
          (dispatch_route limited method endpoint view m).1.status =
        m.httpErrors method endpoint
          (dispatch_route limited method endpoint view m).1.status + 1) ∧
    (limited = true → (dispatch_route limited method endpoint view m).1.status = 500) := by
  cases limited with
  | false =>
    cases view with
    | ok r =>
      by_cases hs : 400 ≤ r.status
      · simp [dispatch_route, track_metrics, hs, bumpStatus, bumpPair]
      · simp [dispatch_route, track_metrics, hs, bumpStatus, bumpPair]
    | raised => simp [dispatch_route, track_metrics, bumpStatus, bumpPair, Resp.err]
  | true => simp [dispatch_route, track_metrics, bumpStatus, bumpPair, Resp.err]

/-- Claim C6 witness: the counters at a concrete 400-status request
against the all-zero sink. -/
theorem claim_C6_witness :
    (dispatch_route false "POST" "create_user"
        (.ok (Resp.err 400 "Invalid email format")) metricsZero).2.requestCount
        "POST" "create_user"
        (dispatch_route false "POST" "create_user"
          (.ok (Resp.err 400 "Invalid email format")) metricsZero).1.status =
      metricsZero.requestCount "POST" "create_user"
        (dispatch_route false "POST" "create_user"
          (.ok (Resp.err 400 "Invalid email format")) metricsZero).1.status + 1 ∧
    (dispatch_route false "POST" "create_user"
        (.ok (Resp.err 400 "Invalid email format")) metricsZero).2.latencyObs
        "POST" "create_user" =
      metricsZero.latencyObs "POST" "create_user" + 1 ∧
    (dispatch_route false "POST" "create_user"
        (.ok (Resp.err 400 "Invalid email format")) metricsZero).2.httpErrors
        "POST" "create_user"
        (dispatch_route false "POST" "create_user"
          (.ok (Resp.err 400 "Invalid email format")) metricsZero).1.status =
      metricsZero.httpErrors "POST" "create_user"
        (dispatch_route false "POST" "create_user"
          (.ok (Resp.err 400 "Invalid email format")) metricsZero).1.status + 1 :=
  ⟨(claim_C6_metrics_every_exit false "POST" "create_user"
      (.ok (Resp.err 400 "Invalid email format")) metricsZero).1,
   (claim_C6_metrics_every_exit false "POST" "create_user"
      (.ok (Resp.err 400 "Invalid email format")) metricsZero).2.1,
   (claim_C6_metrics_every_exit false "POST" "create_user"
      (.ok (Resp.err 400 "Invalid email format")) metricsZero).2.2.1 (by decide)⟩

/-- Claim C7 counterexample: a name containing a tab, and one made of two
multiplication signs, are accepted by validate_name although neither
character is a letter, a space, a hyphen or an apostrophe. -/
theorem claim_C7_counterexample_class_mismatch :
    validate_name tabName = true ∧ spec_name_ok tabName = false ∧
    validate_name xxName = true ∧ spec_name_ok xxName = false := by decide

/-- Claim C7 (amended): validate_name accepts exactly the strings of
length 2 to 100 all of whose characters lie in the regex class — ASCII
letters, the whole Latin-1 range U+00C0 to U+00FF (including the
multiplication and division signs), any regex whitespace, hyphen and
apostrophe — and in particular accepts the Anne-Marie example and rejects
the too-short X and the digit-carrying Bob123. -/
theorem claim_C7_name_characterization :
    (∀ s : String, validate_name s = true ↔
      (2 ≤ s.length ∧ s.length ≤ 100 ∧ ∀ c ∈ s.toList, nameChar c = true)) ∧
    validate_name nameOBrien = true ∧ validate_name "X" = false ∧
    validate_name "Bob123" = false := by
  refine ⟨?_, by decide, by decide, by decide⟩
  intro s
  have hlen : s.toList.length = s.length := rfl
  constructor
  · intro h
    simp only [validate_name] at h
    split at h
    · exact absurd h (by simp)
    · next hc =>
      simp only [Bool.or_eq_true, decide_eq_true_eq, not_or, not_lt] at hc
      simp only [Bool.and_eq_true, List.all_eq_true] at h
      exact ⟨hc.1, hc.2, h.2⟩
  · rintro ⟨h1, h2, h3⟩
    have hcond : ¬((s.length < 2 || 100 < s.length) = true) := by
      simp only [Bool.or_eq_true, decide_eq_true_eq]
      omega
    simp only [validate_name]
    rw [if_neg hcond]
    simp only [Bool.and_eq_true, List.all_eq_true]
    refine ⟨?_, h3⟩
    rcases hsl : s.toList with _ | ⟨c, cs⟩
    · rw [hsl] at hlen
      simp at hlen
      exfalso
      omega
    · simp

/-- Claim C8 counterexample: the string a@b.co followed by a newline is
accepted by validate_email but does not have the standard shape. -/
theorem claim_C8_counterexample_trailing_newline :
    validate_email emailNL = true ∧ standard_email_shape emailNL = false := by decide

/-- Claim C8 (amended): validate_email accepts exactly the strings of the
standard local at-sign domain dot tld shape, optionally followed by a
single trailing newline (the regex end-anchor artifact); in particular it
accepts a@b.co and rejects not-an-email. -/
theorem claim_C8_email_characterization :
    (∀ s : String, validate_email s = true ↔
      (standard_email_shape s = true ∨
        (s.toList.getLast? = some '\n' ∧
         standard_email_shape (String.mk s.toList.dropLast) = true))) ∧
    validate_email "a@b.co" = true ∧ validate_email "not-an-email" = false := by
  refine ⟨?_, by decide, by decide⟩
  intro s
  simp [validate_email, standard_email_shape, Bool.or_eq_true, Bool.and_eq_true,
    decide_eq_true_eq]

/-- Claim C9 (amended): for any stored table, a GET of the id-zero path
answers 400 for an invalid id without touching persistence, while the
minus-one path matches no route (the integer converter admits digits
only) and falls to the routing 404 handler, also without touching
persistence. -/
theorem claim_C9_nonpositive_id (users : List StoredUser) :
    dispatch_get_user users "/users/0" = (.err 400 "Invalid user ID", false) ∧
    dispatch_get_user users "/users/-1" = (.err 404 "Resource not found", false) :=
  ⟨rfl, rfl⟩

/-- Claim C9 counterexample: the minus-one path yields 404, not the
claimed 400 validation error. -/
theorem claim_C9_counterexample_negative_id :
    (dispatch_get_user [userAnne] "/users/-1").1.status = 404 ∧
    ¬(dispatch_get_user [userAnne] "/users/-1").1.status = 400 := by decide

/-- Claim C10: a successful create persists not the input name but its
sanitized form (the dangerous characters and the dash-dash sequence
deleted) together with the normalized email; and the two-apostrophe name
passes validation yet sanitizes to the empty string, of length below the
validated minimum of 2. -/
theorem claim_C10_persisted_name_sanitized (cr : Bool) (st : SState)
    (name email : String)
    (h : (create_user cr st (some ⟨some name, some email⟩)).1.status = 201) :
    (create_user cr st (some ⟨some name, some email⟩)).2.users =
      st.users ++ [⟨st.nextId, sanitize_input name, pyLower (pyStrip email)⟩] ∧
    validate_name apApName = true ∧ sanitize_input apApName = "" ∧
    (sanitize_input apApName).length = 0 :=
  ⟨create_201_users cr st name email h, by decide, by decide, by decide⟩

/-- Claim C10 witness: creating a user with the two-apostrophe name in the
empty store persists a row whose name is the empty string. -/
theorem claim_C10_witness :
    (create_user false stEmpty (some ⟨some apApName, some "c@d.co"⟩)).2.users =
      stEmpty.users ++
        [⟨stEmpty.nextId, sanitize_input apApName, pyLower (pyStrip "c@d.co")⟩] ∧
    validate_name apApName = true ∧ sanitize_input apApName = "" ∧
    (sanitize_input apApName).length = 0 :=
  claim_C10_persisted_name_sanitized false stEmpty apApName "c@d.co" (by decide)

end UsersService
